import Mathlib

/-!
Shallow embedding of the two tool operations of `weather_distance_app.py`:
`get_weather` (HTTP-backed weather fetch with unit conversion and error
classification) and `calculate_distance` (static gazetteer lookup plus the
haversine great-circle formula).

Modelling choices:
* The Python dicts returned by the tools become association lists
  `List (String × _)`; a failure is the one-entry list keyed `"error"`.
* Python floats are idealised as real numbers `ℝ`; the literal coordinates
  are exact rationals `ℚ`.  The builtin `round(x, n)` of Python
  (round-half-to-even) becomes an explicit half-even rounding function.
* Python exceptions inside the `try` blocks become an explicit `PyError`
  value threaded through `Except`; the `except` clauses become a total
  match on that value, so the embedded tool functions are total.
* The HTTP response is an external input, modelled by `HttpOutcome`:
  either a response (status code, raw body text, and the outcome of
  parsing the body with `response.json()`) or a transport-level
  `requests` exception.
-/

/-- Python exceptions that the `try` blocks of the two tools can observe:
`requests.exceptions.RequestException`, `KeyError` (with the missing key),
and everything else (`Exception`) with its message. -/
inductive PyError where
  | requestException (msg : String)
  | keyError (key : String)
  | other (msg : String)

/-- JSON values as delivered by `response.json()`. -/
inductive Json where
  | null
  | bool (b : Bool)
  | num (q : ℚ)
  | str (s : String)
  | arr (elems : List Json)
  | obj (fields : List (String × Json))

/-- Python `data[key]` on a JSON value: a `KeyError` on a missing key of an
object, a `TypeError`-style generic error when the value is not an object. -/
def Json.getField : Json → String → Except PyError Json
  | .obj fields, key =>
    match fields.lookup key with
    | some v => .ok v
    | none => .error (.keyError key)
  | _, _ => .error (.other "value is not subscriptable by key")

/-- Python `data[i]` on a JSON value: an `IndexError`-style generic error
when out of range (an `IndexError` of Python is not a `KeyError`, so it
falls to the catch-all handler), a `TypeError`-style generic error when the
value is not a list. -/
def Json.getIndex : Json → Nat → Except PyError Json
  | .arr elems, i =>
    match elems.get? i with
    | some v => .ok v
    | none => .error (.other "list index out of range")
  | _, _ => .error (.other "value is not subscriptable by index")

/-- Using a JSON value in arithmetic (`temp * 9/5 + 32`): succeeds on a
number, raises a `TypeError`-style generic error otherwise. -/
def Json.asNum : Json → Except PyError ℚ
  | .num q => .ok q
  | _ => .error (.other "unsupported operand type for arithmetic")

/-- Round-half-to-even to the nearest integer on `ℚ` (recall that the
`round` of Mathlib is round-half-up, so ties are redirected here to the
nearest even integer, matching the Python builtin). -/
def roundHalfEvenQ (x : ℚ) : ℤ :=
  if Int.fract x = 1 / 2 then 2 * round (x / 2) else round x

/-- The Python call `round(x, 1)` on the idealised rational value. -/
def round1 (x : ℚ) : ℚ := (roundHalfEvenQ (x * 10) : ℚ) / 10

/-- The external input to one `get_weather` call: either an HTTP response
(status code, raw body text, result of parsing the body as JSON) or a
transport-level failure raised by `requests.get`. -/
inductive HttpOutcome where
  | response (status : Nat) (text : String) (body : Except PyError Json)
  | requestException (msg : String)

/-- Body of the `try` block of `get_weather` on the 200 path, with the
field accesses in the evaluation order of the Python dict literal; a
`PyError` models the exception that the corresponding Python expression
would raise. -/
def parse_weather (city : String) (data : Json) : Except PyError (List (String × Json)) := do
  let temp ← (← data.getField "main").getField "temp"
  let tempQ ← temp.asNum
  let conditions ← (← (← data.getField "weather").getIndex 0).getField "description"
  let humidity ← (← data.getField "main").getField "humidity"
  let wind_speed ← (← data.getField "wind").getField "speed"
  let pressure ← (← data.getField "main").getField "pressure"
  return [("city", Json.str city),
          ("temperature", temp),
          ("temperature_f", Json.num (round1 (tempQ * (9 / 5) + 32))),
          ("conditions", conditions),
          ("humidity", humidity),
          ("wind_speed", wind_speed),
          ("pressure", pressure)]

/-- The `try` block of `get_weather`: a non-200 status returns the
API-error dict normally (no exception is raised there); a 200 status
parses the body and builds the success dict, any raised `PyError`
propagating out. -/
def get_weather_try (city : String) (http : HttpOutcome) : Except PyError (List (String × Json)) :=
  match http with
  | .requestException msg => .error (.requestException msg)
  | .response status text body =>
    if status = 200 then do
      let data ← body
      parse_weather city data
    else
      .ok [("error", Json.str ("API Error: " ++ toString status ++ " - " ++ text))]

/-- `get_weather` with its `except` clauses: `RequestException` first, then
`KeyError` (Python `str(KeyError)` quotes the key), then the catch-all. -/
def get_weather (city : String) (http : HttpOutcome) : List (String × Json) :=
  match get_weather_try city http with
  | .ok d => d
  | .error (.requestException m) => [("error", Json.str ("Network error: " ++ m))]
  | .error (.keyError k) => [("error", Json.str ("Could not parse weather data: \x27" ++ k ++ "\x27"))]
  | .error (.other m) => [("error", Json.str m)]

/-- A gazetteer entry: latitude and longitude in decimal degrees. -/
structure Coord where
  lat : ℚ
  lon : ℚ
  deriving DecidableEq

/-- The static city-coordinate table of `calculate_distance`, in source
order. -/
def city_coordinates : List (String × Coord) :=
  [("malaga", ⟨36.7213, -4.4213⟩),
   ("madrid", ⟨40.4168, -3.7038⟩),
   ("barcelona", ⟨41.3851, 2.1734⟩),
   ("valencia", ⟨39.4699, -0.3763⟩),
   ("seville", ⟨37.3891, -5.9845⟩),
   ("fuengirola", ⟨36.5393, -4.6249⟩),
   ("marbella", ⟨36.5100, -4.8861⟩),
   ("london", ⟨51.5074, -0.1278⟩),
   ("paris", ⟨48.8566, 2.3522⟩),
   ("berlin", ⟨52.5200, 13.4050⟩),
   ("rome", ⟨41.9028, 12.4964⟩),
   ("amsterdam", ⟨52.3676, 4.9041⟩),
   ("lisbon", ⟨38.7223, -9.1393⟩),
   ("new york", ⟨40.7128, -74.0060⟩),
   ("los angeles", ⟨34.0522, -118.2437⟩),
   ("chicago", ⟨41.8781, -87.6298⟩),
   ("toronto", ⟨43.6532, -79.3832⟩),
   ("mexico city", ⟨19.4326, -99.1332⟩),
   ("buenos aires", ⟨34.6037, -58.3816⟩),
   ("tokyo", ⟨35.6762, 139.6503⟩),
   ("beijing", ⟨39.9042, 116.4074⟩),
   ("sydney", ⟨33.8688, 151.2093⟩),
   ("singapore", ⟨1.3521, 103.8198⟩),
   ("dubai", ⟨25.2048, 55.2708⟩)]

/-- Python `str.lower`, character by character (the inputs at play are
ASCII, where the two agree). -/
def py_lower (s : String) : String := ⟨s.data.map Char.toLower⟩

/-- The lookup `calculate_distance` performs: lowercase the name (Python
`str.lower`, i.e. no whitespace trimming) and look it up in the table. -/
def lookup_city (name : String) : Option Coord :=
  city_coordinates.lookup (py_lower name)

/-- Python `math.radians`. -/
noncomputable def radians (deg : ℚ) : ℝ := (deg : ℝ) * Real.pi / 180

/-- The `haversine_distance` helper of the source, over idealised reals. -/
noncomputable def haversine_distance (lat1 lon1 lat2 lon2 : ℚ) : ℝ :=
  let rlat1 := radians lat1
  let rlon1 := radians lon1
  let rlat2 := radians lat2
  let rlon2 := radians lon2
  let dlon := rlon2 - rlon1
  let dlat := rlat2 - rlat1
  let a := Real.sin (dlat / 2) ^ 2 + Real.cos rlat1 * Real.cos rlat2 * Real.sin (dlon / 2) ^ 2
  let c := 2 * Real.arcsin (Real.sqrt a)
  c * 6371

/-- Round-half-to-even to the nearest integer on `ℝ`. -/
noncomputable def roundHalfEvenR (x : ℝ) : ℤ :=
  if Int.fract x = 1 / 2 then 2 * round (x / 2) else round x

/-- The Python call `round(x, 2)` on the idealised real value. -/
noncomputable def round2 (x : ℝ) : ℝ := (roundHalfEvenR (x * 100) : ℝ) / 100

/-- Values of the dict returned by `calculate_distance`: the echoed city
names are strings, the two distances are (idealised) floats. -/
inductive DVal where
  | str (s : String)
  | real (x : ℝ)

/-- The `calculate_distance` tool: check the origin city first, then the
destination, then compute the haversine distance, miles derived from the
unrounded kilometre value, both rounded to two decimals. -/
noncomputable def calculate_distance (from_city to_city : String) : List (String × DVal) :=
  match lookup_city from_city with
  | none => [("error", DVal.str ("Coordinates for " ++ from_city ++ " not found. Please try another city."))]
  | some from_coords =>
    match lookup_city to_city with
    | none => [("error", DVal.str ("Coordinates for " ++ to_city ++ " not found. Please try another city."))]
    | some to_coords =>
      let distance_km := haversine_distance from_coords.lat from_coords.lon to_coords.lat to_coords.lon
      let distance_miles := distance_km * 0.621371
      [("from_city", DVal.str from_city),
       ("to_city", DVal.str to_city),
       ("distance_km", DVal.real (round2 distance_km)),
       ("distance_miles", DVal.real (round2 distance_miles))]

/-- The haversine formula exactly as worded by §4.1 of the spec:
`a = sin²(dlat/2) + cos(lat1)·cos(lat2)·sin²(dlon/2)`, `c = 2·asin(√a)`,
`distance_km = c × 6371`, after converting the degrees to radians. -/
noncomputable def haversine_spec (lat1 lon1 lat2 lon2 : ℚ) : ℝ :=
  2 * Real.arcsin (Real.sqrt (Real.sin ((radians lat2 - radians lat1) / 2) ^ 2 +
      Real.cos (radians lat1) * Real.cos (radians lat2) *
        Real.sin ((radians lon2 - radians lon1) / 2) ^ 2)) * 6371

/-- The gazetteer exactly as the spec lists it ("must contain (name →
lat,lon) exactly these ... entries"), in the listing order of the spec. -/
def spec_gazetteer : List (String × Coord) :=
  [("malaga", ⟨36.7213, -4.4213⟩),
   ("madrid", ⟨40.4168, -3.7038⟩),
   ("barcelona", ⟨41.3851, 2.1734⟩),
   ("valencia", ⟨39.4699, -0.3763⟩),
   ("seville", ⟨37.3891, -5.9845⟩),
   ("fuengirola", ⟨36.5393, -4.6249⟩),
   ("marbella", ⟨36.5100, -4.8861⟩),
   ("london", ⟨51.5074, -0.1278⟩),
   ("paris", ⟨48.8566, 2.3522⟩),
   ("berlin", ⟨52.5200, 13.4050⟩),
   ("rome", ⟨41.9028, 12.4964⟩),
   ("amsterdam", ⟨52.3676, 4.9041⟩),
   ("lisbon", ⟨38.7223, -9.1393⟩),
   ("new york", ⟨40.7128, -74.0060⟩),
   ("los angeles", ⟨34.0522, -118.2437⟩),
   ("chicago", ⟨41.8781, -87.6298⟩),
   ("toronto", ⟨43.6532, -79.3832⟩),
   ("mexico city", ⟨19.4326, -99.1332⟩),
   ("buenos aires", ⟨34.6037, -58.3816⟩),
   ("tokyo", ⟨35.6762, 139.6503⟩),
   ("beijing", ⟨39.9042, 116.4074⟩),
   ("sydney", ⟨33.8688, 151.2093⟩),
   ("singapore", ⟨1.3521, 103.8198⟩),
   ("dubai", ⟨25.2048, 55.2708⟩)]

/-! ## Helper lemmas -/

/-- The haversine helper is symmetric in its two points: the latitude and
longitude differences flip sign, the sine is odd and squared, and the two
cosines commute. -/
theorem haversine_comm (a1 o1 a2 o2 : ℚ) :
    haversine_distance a1 o1 a2 o2 = haversine_distance a2 o2 a1 o1 := by
  simp only [haversine_distance]
  have key : Real.sin ((radians a1 - radians a2) / 2) ^ 2 +
        Real.cos (radians a2) * Real.cos (radians a1) *
          Real.sin ((radians o1 - radians o2) / 2) ^ 2 =
      Real.sin ((radians a2 - radians a1) / 2) ^ 2 +
        Real.cos (radians a1) * Real.cos (radians a2) *
          Real.sin ((radians o2 - radians o1) / 2) ^ 2 := by
    rw [show (radians a1 - radians a2) / 2 = -((radians a2 - radians a1) / 2) by ring,
        show (radians o1 - radians o2) / 2 = -((radians o2 - radians o1) / 2) by ring,
        Real.sin_neg, Real.sin_neg]
    ring
  rw [key]

/-- The haversine helper vanishes on a repeated point. -/
theorem haversine_self (a o : ℚ) : haversine_distance a o a o = 0 := by
  simp [haversine_distance]

/-- Rounding zero to two decimals gives zero. -/
theorem round2_zero : round2 0 = 0 := by
  unfold round2 roundHalfEvenR
  rw [zero_mul, Int.fract_zero]
  rw [if_neg (by norm_num), round_zero]
  norm_num

/-- Whenever the 200-path body of `get_weather` completes without an
exception, the dict it built has no `"error"` key and echoes the city. -/
theorem parse_weather_ok (city : String) (data : Json) (d : List (String × Json))
    (h : parse_weather city data = .ok d) :
    d.lookup "error" = none ∧ d.lookup "city" = some (Json.str city) := by
  simp only [parse_weather, bind, Except.bind, pure, Except.pure] at h
  repeat' split at h
  all_goals try exact Except.noConfusion h
  injection h with h
  subst h
  exact ⟨rfl, rfl⟩

/-- Every normal (non-exception) result of the `try` block of `get_weather`
is either the API-error dict or a success dict without an `"error"` key. -/
theorem get_weather_try_ok (city : String) (http : HttpOutcome) (d : List (String × Json))
    (h : get_weather_try city http = .ok d) :
    (∃ m, d = [("error", Json.str m)]) ∨
      (d.lookup "error" = none ∧ d.lookup "city" = some (Json.str city)) := by
  cases http with
  | requestException m => exact Except.noConfusion h
  | response status text body =>
    simp only [get_weather_try] at h
    by_cases hs : status = 200
    · rw [if_pos hs] at h
      simp only [bind, Except.bind] at h
      cases body with
      | error e => exact Except.noConfusion h
      | ok data => exact Or.inr (parse_weather_ok city data d h)
    · rw [if_neg hs] at h
      injection h with h
      exact Or.inl ⟨_, h.symm⟩

/-! ## Claims -/

/-- Claim C1: every call to either tool returns a structured dict and no
exception escapes the tool boundary (the embedded functions are total over
all modelled inputs, every raised `PyError` being converted to a payload);
a failure is exactly the one-entry dict keyed `"error"`, and a success
payload carries no `"error"` field (it carries the `"city"` field for
`get_weather` and the `"from_city"` field for `calculate_distance`), so
callers can distinguish the two cases by that field alone. -/
theorem C1_tool_results_tagged :
    (∀ (city : String) (http : HttpOutcome),
      (∃ m, get_weather city http = [("error", Json.str m)]) ∨
        ((get_weather city http).lookup "error" = none ∧
          (get_weather city http).lookup "city" = some (Json.str city))) ∧
    (∀ from_city to_city : String,
      (∃ m, calculate_distance from_city to_city = [("error", DVal.str m)]) ∨
        ((calculate_distance from_city to_city).lookup "error" = none ∧
          (calculate_distance from_city to_city).lookup "from_city" =
            some (DVal.str from_city))) := by
  constructor
  · intro city http
    unfold get_weather
    cases hres : get_weather_try city http with
    | error e => cases e <;> exact Or.inl ⟨_, rfl⟩
    | ok d => exact get_weather_try_ok city http d hres
  · intro from_city to_city
    unfold calculate_distance
    cases lookup_city from_city with
    | none => exact Or.inl ⟨_, rfl⟩
    | some cf =>
      cases lookup_city to_city with
      | none => exact Or.inl ⟨_, rfl⟩
      | some ct => exact Or.inr ⟨rfl, rfl⟩

/-- Claim C2: on two gazetteer cities, `calculate_distance` returns the
kilometre distance computed exactly by the haversine formula as the spec
words it (`haversine_spec`), converts to miles by multiplying the
unrounded kilometre value by `0.621371`, and rounds each of the two
results to two decimals with the same half-even rounding (`round2`). -/
theorem C2_haversine_exact (from_city to_city : String) (cf ct : Coord)
    (hf : lookup_city from_city = some cf) (ht : lookup_city to_city = some ct) :
    calculate_distance from_city to_city =
      [("from_city", DVal.str from_city),
       ("to_city", DVal.str to_city),
       ("distance_km", DVal.real (round2 (haversine_spec cf.lat cf.lon ct.lat ct.lon))),
       ("distance_miles",
        DVal.real (round2 (haversine_spec cf.lat cf.lon ct.lat ct.lon * 0.621371)))] := by
  have hh : haversine_distance cf.lat cf.lon ct.lat ct.lon =
      haversine_spec cf.lat cf.lon ct.lat ct.lon := rfl
  simp [calculate_distance, hf, ht, hh]

/-- Witness for C2 on the known fixture pair (malaga, madrid). -/
theorem C2_haversine_exact_witness :
    calculate_distance "malaga" "madrid" =
      [("from_city", DVal.str "malaga"),
       ("to_city", DVal.str "madrid"),
       ("distance_km", DVal.real (round2 (haversine_spec 36.7213 (-4.4213) 40.4168 (-3.7038)))),
       ("distance_miles",
        DVal.real (round2 (haversine_spec 36.7213 (-4.4213) 40.4168 (-3.7038) * 0.621371)))] :=
  C2_haversine_exact "malaga" "madrid" ⟨36.7213, -4.4213⟩ ⟨40.4168, -3.7038⟩ rfl rfl

/-- Counterexample to the entry count in claim C3: the gazetteer holds 24
entries, not 22 (the claim itself lists 24 name-coordinate pairs). -/
theorem C3_gazetteer_count_counterexample :
    city_coordinates.length = 24 ∧ ¬city_coordinates.length = 22 := by
  exact ⟨rfl, by decide⟩

/-- Claim C3 as amended: the static gazetteer holds exactly the 24 listed
entries with exactly the listed coordinates (transcribed from the spec as
`spec_gazetteer`), its keys are pairwise distinct, and it has no other
keys. -/
theorem C3_gazetteer_exact :
    city_coordinates = spec_gazetteer ∧
      (city_coordinates.map Prod.fst).Nodup ∧
      city_coordinates.length = 24 :=
  ⟨rfl, by decide, rfl⟩

/-- Counterexample to claim C4: the code does not trim surrounding
whitespace, so an input differing from a gazetteer key only by surrounding
whitespace fails with an error payload instead of succeeding. -/
theorem C4_whitespace_counterexample :
    calculate_distance " madrid " "barcelona" =
      [("error", DVal.str "Coordinates for  madrid  not found. Please try another city.")] := by
  have h : lookup_city " madrid " = none := rfl
  simp [calculate_distance, h]

/-- Claim C4 as amended: `calculate_distance` normalizes both inputs by
lowercasing only (no whitespace trimming) for the gazetteer lookup, while
the success payload echoes the original input strings with their original
casing; in particular the call on ("MADRID", "barcelona") succeeds with
the same distances as the all-lowercase call. -/
theorem C4_lowercase_lookup_echo :
    (∀ (from_city to_city : String) (cf ct : Coord),
      lookup_city from_city = some cf → lookup_city to_city = some ct →
        calculate_distance from_city to_city =
          [("from_city", DVal.str from_city),
           ("to_city", DVal.str to_city),
           ("distance_km", DVal.real (round2 (haversine_distance cf.lat cf.lon ct.lat ct.lon))),
           ("distance_miles",
            DVal.real (round2 (haversine_distance cf.lat cf.lon ct.lat ct.lon * 0.621371)))]) ∧
    (∃ d m : ℝ,
      calculate_distance "MADRID" "barcelona" =
        [("from_city", DVal.str "MADRID"), ("to_city", DVal.str "barcelona"),
         ("distance_km", DVal.real d), ("distance_miles", DVal.real m)] ∧
      calculate_distance "madrid" "barcelona" =
        [("from_city", DVal.str "madrid"), ("to_city", DVal.str "barcelona"),
         ("distance_km", DVal.real d), ("distance_miles", DVal.real m)]) := by
  have main : ∀ (from_city to_city : String) (cf ct : Coord),
      lookup_city from_city = some cf → lookup_city to_city = some ct →
        calculate_distance from_city to_city =
          [("from_city", DVal.str from_city),
           ("to_city", DVal.str to_city),
           ("distance_km", DVal.real (round2 (haversine_distance cf.lat cf.lon ct.lat ct.lon))),
           ("distance_miles",
            DVal.real (round2 (haversine_distance cf.lat cf.lon ct.lat ct.lon * 0.621371)))] := by
    intro from_city to_city cf ct hf ht
    simp [calculate_distance, hf, ht]
  refine ⟨main, round2 (haversine_distance 40.4168 (-3.7038) 41.3851 2.1734),
    round2 (haversine_distance 40.4168 (-3.7038) 41.3851 2.1734 * 0.621371), ?_, ?_⟩
  · exact main "MADRID" "barcelona" ⟨40.4168, -3.7038⟩ ⟨41.3851, 2.1734⟩ rfl rfl
  · exact main "madrid" "barcelona" ⟨40.4168, -3.7038⟩ ⟨41.3851, 2.1734⟩ rfl rfl

/-- Witness for C4 on the pair ("Paris", "Rome"), whose casing differs
from the gazetteer keys. -/
theorem C4_lowercase_lookup_echo_witness :
    calculate_distance "Paris" "Rome" =
      [("from_city", DVal.str "Paris"), ("to_city", DVal.str "Rome"),
       ("distance_km", DVal.real (round2 (haversine_distance 48.8566 2.3522 41.9028 12.4964))),
       ("distance_miles",
        DVal.real (round2 (haversine_distance 48.8566 2.3522 41.9028 12.4964 * 0.621371)))] :=
  C4_lowercase_lookup_echo.1 "Paris" "Rome" ⟨48.8566, 2.3522⟩ ⟨41.9028, 12.4964⟩ rfl rfl

/-- Claim C5: `get_weather` classifies every failure into a distinct error
payload by message text — a non-200 status gives an API-error payload with
the status code and the response body text; a transport-level failure
gives a network-error payload with the cause (never a parsing error); a
`KeyError` from a missing JSON field on the 200 path gives a parsing-error
payload naming the missing key; any other failure gives a generic payload
with the cause. -/
theorem C5_error_taxonomy :
    (∀ (city : String) (status : Nat) (text : String) (body : Except PyError Json),
      status ≠ 200 →
        get_weather city (.response status text body) =
          [("error", Json.str ("API Error: " ++ toString status ++ " - " ++ text))]) ∧
    (∀ city m : String,
      get_weather city (.requestException m) =
        [("error", Json.str ("Network error: " ++ m))]) ∧
    (∀ (city : String) (http : HttpOutcome) (k : String),
      get_weather_try city http = .error (.keyError k) →
        get_weather city http =
          [("error", Json.str ("Could not parse weather data: \x27" ++ k ++ "\x27"))]) ∧
    (∀ (city : String) (http : HttpOutcome) (m : String),
      get_weather_try city http = .error (.other m) →
        get_weather city http = [("error", Json.str m)]) := by
  refine ⟨?_, ?_, ?_, ?_⟩
  · intro city status text body h
    unfold get_weather
    simp [get_weather_try, h]
  · intro city m
    rfl
  · intro city http k h
    unfold get_weather
    rw [h]
  · intro city http m h
    unfold get_weather
    rw [h]

/-- Witness for C5: a 404 response, a connection failure, a 200 response
missing the `"main"` field, and a 200 response whose body fails to parse
as JSON, each classified as the claim requires. -/
theorem C5_error_taxonomy_witness :
    get_weather "London" (.response 404 "Not Found" (.ok Json.null)) =
      [("error", Json.str "API Error: 404 - Not Found")] ∧
    get_weather "London" (.requestException "Connection refused") =
      [("error", Json.str "Network error: Connection refused")] ∧
    get_weather "London" (.response 200 "x" (.ok (Json.obj []))) =
      [("error", Json.str "Could not parse weather data: \x27main\x27")] ∧
    get_weather "London" (.response 200 "x" (.error (.other "Expecting value"))) =
      [("error", Json.str "Expecting value")] :=
  ⟨C5_error_taxonomy.1 "London" 404 "Not Found" (.ok Json.null) (by decide),
   C5_error_taxonomy.2.1 "London" "Connection refused",
   C5_error_taxonomy.2.2.1 "London" (.response 200 "x" (.ok (Json.obj []))) "main" rfl,
   C5_error_taxonomy.2.2.2 "London" (.response 200 "x" (.error (.other "Expecting value")))
     "Expecting value" rfl⟩

/-- Claim C6: on a 200 response whose JSON body carries all expected
fields, `get_weather` returns the success payload whose `temperature` is
the raw `main.temp` value, whose `temperature_f` is exactly
`round(temp × 9/5 + 32, 1)`, whose `conditions` is the description of the
first element of the weather list, together with the humidity, wind speed
and pressure values of the response. -/
theorem C6_success_payload (city text : String)
    (data mainObj weatherArr w0 windObj : Json) (temp : ℚ)
    (conditions humidity speed pressure : Json)
    (hmain : data.getField "main" = .ok mainObj)
    (htemp : mainObj.getField "temp" = .ok (Json.num temp))
    (hweather : data.getField "weather" = .ok weatherArr)
    (hw0 : weatherArr.getIndex 0 = .ok w0)
    (hdesc : w0.getField "description" = .ok conditions)
    (hhum : mainObj.getField "humidity" = .ok humidity)
    (hwind : data.getField "wind" = .ok windObj)
    (hspeed : windObj.getField "speed" = .ok speed)
    (hpress : mainObj.getField "pressure" = .ok pressure) :
    get_weather city (.response 200 text (.ok data)) =
      [("city", Json.str city),
       ("temperature", Json.num temp),
       ("temperature_f", Json.num (round1 (temp * (9 / 5) + 32))),
       ("conditions", conditions),
       ("humidity", humidity),
       ("wind_speed", speed),
       ("pressure", pressure)] := by
  unfold get_weather get_weather_try
  simp only [if_pos rfl, bind, Except.bind, parse_weather,
    hmain, htemp, hweather, hw0, hdesc, hhum, hwind, hspeed, hpress,
    Json.asNum, pure, Except.pure, if_true]

/-- Witness for C6 on a concrete fixture with `main.temp = 20`. -/
theorem C6_success_payload_witness :
    get_weather "London" (.response 200 "x" (.ok (Json.obj
      [("main", Json.obj [("temp", Json.num 20), ("humidity", Json.num 65),
                          ("pressure", Json.num 1012)]),
       ("weather", Json.arr [Json.obj [("description", Json.str "clear sky")]]),
       ("wind", Json.obj [("speed", Json.num 3)])]))) =
      [("city", Json.str "London"),
       ("temperature", Json.num 20),
       ("temperature_f", Json.num (round1 (20 * (9 / 5) + 32))),
       ("conditions", Json.str "clear sky"),
       ("humidity", Json.num 65),
       ("wind_speed", Json.num 3),
       ("pressure", Json.num 1012)] :=
  C6_success_payload "London" "x"
    (Json.obj
      [("main", Json.obj [("temp", Json.num 20), ("humidity", Json.num 65),
                          ("pressure", Json.num 1012)]),
       ("weather", Json.arr [Json.obj [("description", Json.str "clear sky")]]),
       ("wind", Json.obj [("speed", Json.num 3)])])
    (Json.obj [("temp", Json.num 20), ("humidity", Json.num 65), ("pressure", Json.num 1012)])
    (Json.arr [Json.obj [("description", Json.str "clear sky")]])
    (Json.obj [("description", Json.str "clear sky")])
    (Json.obj [("speed", Json.num 3)])
    20 (Json.str "clear sky") (Json.num 65) (Json.num 3) (Json.num 1012)
    rfl rfl rfl rfl rfl rfl rfl rfl rfl

/-- Claim C7: whenever a city is absent from the gazetteer after
lowercasing, `calculate_distance` returns (without raising) an error
payload that names the missing city exactly as the caller gave it — the
origin when the origin is missing, otherwise the destination. -/
theorem C7_missing_city_error :
    (∀ from_city to_city : String, lookup_city from_city = none →
      calculate_distance from_city to_city =
        [("error",
          DVal.str ("Coordinates for " ++ from_city ++ " not found. Please try another city."))]) ∧
    (∀ (from_city to_city : String) (cf : Coord), lookup_city from_city = some cf →
      lookup_city to_city = none →
      calculate_distance from_city to_city =
        [("error",
          DVal.str ("Coordinates for " ++ to_city ++ " not found. Please try another city."))]) := by
  constructor
  · intro from_city to_city hf
    simp [calculate_distance, hf]
  · intro from_city to_city cf hf ht
    simp [calculate_distance, hf, ht]

/-- Witness for C7: the call on ("Nowhereville", "Madrid") returns the
error payload mentioning "Nowhereville". -/
theorem C7_missing_city_error_witness :
    calculate_distance "Nowhereville" "Madrid" =
      [("error", DVal.str "Coordinates for Nowhereville not found. Please try another city.")] :=
  C7_missing_city_error.1 "Nowhereville" "Madrid" rfl

/-- Claim C8: for any two gazetteer cities the two call orders return the
same `distance_km` and the same `distance_miles`. -/
theorem C8_distance_symmetric (a b : String) (ca cb : Coord)
    (ha : lookup_city a = some ca) (hb : lookup_city b = some cb) :
    ∃ d m : ℝ,
      calculate_distance a b =
        [("from_city", DVal.str a), ("to_city", DVal.str b),
         ("distance_km", DVal.real d), ("distance_miles", DVal.real m)] ∧
      calculate_distance b a =
        [("from_city", DVal.str b), ("to_city", DVal.str a),
         ("distance_km", DVal.real d), ("distance_miles", DVal.real m)] := by
  refine ⟨round2 (haversine_distance ca.lat ca.lon cb.lat cb.lon),
          round2 (haversine_distance ca.lat ca.lon cb.lat cb.lon * 0.621371), ?_, ?_⟩
  · simp [calculate_distance, ha, hb]
  · have hc := haversine_comm cb.lat cb.lon ca.lat ca.lon
    simp [calculate_distance, ha, hb, hc]

/-- Witness for C8 on the pair (tokyo, sydney). -/
theorem C8_distance_symmetric_witness :
    ∃ d m : ℝ,
      calculate_distance "tokyo" "sydney" =
        [("from_city", DVal.str "tokyo"), ("to_city", DVal.str "sydney"),
         ("distance_km", DVal.real d), ("distance_miles", DVal.real m)] ∧
      calculate_distance "sydney" "tokyo" =
        [("from_city", DVal.str "sydney"), ("to_city", DVal.str "tokyo"),
         ("distance_km", DVal.real d), ("distance_miles", DVal.real m)] :=
  C8_distance_symmetric "tokyo" "sydney" ⟨35.6762, 139.6503⟩ ⟨33.8688, 151.2093⟩ rfl rfl

/-- Claim C9: for any gazetteer city the distance from the city to itself
is a success payload with both distances equal to zero. -/
theorem C9_distance_self_zero (a : String) (ca : Coord) (ha : lookup_city a = some ca) :
    calculate_distance a a =
      [("from_city", DVal.str a), ("to_city", DVal.str a),
       ("distance_km", DVal.real 0), ("distance_miles", DVal.real 0)] := by
  have h0 := haversine_self ca.lat ca.lon
  simp [calculate_distance, ha, h0, round2_zero]

/-- Witness for C9 on the city lisbon. -/
theorem C9_distance_self_zero_witness :
    calculate_distance "lisbon" "lisbon" =
      [("from_city", DVal.str "lisbon"), ("to_city", DVal.str "lisbon"),
       ("distance_km", DVal.real 0), ("distance_miles", DVal.real 0)] :=
  C9_distance_self_zero "lisbon" ⟨38.7223, -9.1393⟩ rfl

/-- Claim C10: when both cities are absent from the gazetteer after
lowercasing, the error payload names the origin city only — the origin
lookup is checked first and short-circuits. -/
theorem C10_origin_checked_first (from_city to_city : String)
    (hf : lookup_city from_city = none) (ht : lookup_city to_city = none) :
    calculate_distance from_city to_city =
      [("error",
        DVal.str ("Coordinates for " ++ from_city ++ " not found. Please try another city."))] := by
  simp [calculate_distance, hf]

/-- Witness for C10 on two cities absent from the gazetteer. -/
theorem C10_origin_checked_first_witness :
    calculate_distance "Atlantis" "Nowhereville" =
      [("error", DVal.str "Coordinates for Atlantis not found. Please try another city.")] :=
  C10_origin_checked_first "Atlantis" "Nowhereville" rfl rfl
